import Mathlib

/-!
Shallow embedding of the `uptimerobot` Ansible module
(`src/monitoring/uptimerobot.py`), reconciling an Uptime Robot monitor
against a desired state.

The remote service is abstracted as a pure oracle `env : Request → Response`;
the embedded `runMain` returns the ordered trace of remote requests issued,
the final module outcome (`exit_json`, `fail_json`, or an uncaught Python
exception), and the final value of the `monitor_id` variable.

Modelling notes, each tied to a line of the source:
* Parameter values are `Option String`; Python truthiness (`None` and the
  empty string are falsy) is `truthy`.
* A JSON payload is `Response`: its `stat` and `message` fields are what
  `checkResult` (line 140) reads; `monitors` models the nested
  `result['monitors']['monitor']` list, with `none` standing for a payload
  without a `monitors` entry (the guard `'monitors' in result`, line 233);
  `createdId` models the id field that the remote's `newMonitor` response
  carries — the source never reads it, but it is observable in the payload.
* `Outcome.crash` models an uncaught KeyError/IndexError, which happens at
  line 276 (`result['monitors']['monitor'][0]['status']`) when a payload
  that passed `checkResult` has no non-empty monitor list.
* Monitor `status` is a string, because the source compares it against the
  string table `status_codes = dict(paused='0', up='2')` (line 258).
-/

namespace UptimeRobot

/-- Python truthiness for an optional string parameter: `None` and `""` are
falsy, every other string is truthy. -/
def truthy : Option String → Bool
  | none => false
  | some s => s ≠ ""

/-- One record of the remote `monitors.monitor` list: the two fields the
source reads (`['id']` at line 236, `['status']` at line 276). -/
structure Monitor where
  id : String
  status : String
deriving DecidableEq, Repr

/-- A decoded JSON payload returned by the remote service. -/
structure Response where
  stat : String
  message : String
  monitors : Option (List Monitor)
  createdId : Option String
deriving DecidableEq, Repr

/-- A remote request, as assembled by `main` and the helper functions:
`search` and `checkById` are both the read-only `getMonitors` action
(`checkID`), `create` is `newMonitor` (with the `monitorAlertContacts`
parameter already omitted when falsy, line 158), `edit` is `editMonitor`
with the `monitorStatus` set by `startMonitor`/`pauseMonitor`, and
`delete` is `deleteMonitor`. -/
inductive Request where
  | search (apiKey : String) (term : Option String)
  | checkById (apiKey : String) (id : Option String)
  | create (apiKey : String) (friendlyName : Option String) (url : Option String) (alertContacts : Option String)
  | edit (apiKey : String) (id : Option String) (monitorStatus : Nat)
  | delete (apiKey : String) (id : Option String)
deriving DecidableEq, Repr

/-- The `state` module parameter; `argument_spec` restricts it to these
four choices (line 196). -/
inductive State where
  | started
  | paused
  | present
  | absent
deriving DecidableEq, Repr

/-- How the module run ends: `ok changed stat` is `exit_json` (line 295)
reporting `changed` and `result['stat']`; `failed msg res` is `fail_json`
with message `msg` and optional `result` text; `crash` is an uncaught
Python exception. -/
inductive Outcome where
  | ok (changed : Bool) (resultStat : String)
  | failed (msg : String) (result : Option String)
  | crash
deriving DecidableEq, Repr

/-- Observable result of one module invocation: the ordered remote-request
trace, the outcome, and the final value of the `monitor_id` variable. -/
structure RunResult where
  trace : List Request
  outcome : Outcome
  finalId : Option String
deriving DecidableEq, Repr

/-- `status_codes['up']` (line 258). -/
def statusUp : String := "2"

/-- `status_codes['paused']` (line 258). -/
def statusPaused : String := "0"

/-- Search-term choice of lines 222-224: start from `monitor_name`, then
overwrite with `monitor_url` whenever the url is truthy. -/
def searchTerm (name url : Option String) : Option String :=
  if truthy url then url else name

/-- The `monitorAlertContacts` value actually sent by `newMonitor`
(line 158): the key is deleted from the request when falsy. -/
def contactsParam (c : Option String) : Option String :=
  if truthy c then c else none

/-- Result of the id-resolution step (lines 221-238): either the run dies
with the ambiguity failure, or it continues with a trace so far, a
possibly-updated `monitor_id`, and the last response seen (if any). -/
inductive ResolveOut where
  | ambiguous (tr : List Request)
  | resolved (tr : List Request) (mid : Option String) (res : Option Response)
deriving DecidableEq, Repr

/-- Lines 221-238: when no truthy `monitor_id` was supplied, issue one
search request; a payload carrying a `monitors` list resolves only when
the list has exactly one entry, otherwise the run fails; a payload
without a `monitors` entry falls through with `monitor_id` unchanged. -/
def resolvePhase (env : Request → Response) (apikey : String)
    (monitorid monitorname monitorurl : Option String) : ResolveOut :=
  if truthy monitorid then
    ResolveOut.resolved [] monitorid none
  else
    let sreq := Request.search apikey (searchTerm monitorname monitorurl)
    let sres := env sreq
    match sres.monitors with
    | some [m] => ResolveOut.resolved [sreq] (some m.id) (some sres)
    | some _ => ResolveOut.ambiguous [sreq]
    | none => ResolveOut.resolved [sreq] monitorid (some sres)

/-- Lines 272-299: when `monitor_id` is truthy, confirm it with a
`getMonitors` read, check the logical status, read
`result['monitors']['monitor'][0]['status']` (a crash when the list is
missing or empty), decide the single mutating action from `state`, and
re-check the final response; when `monitor_id` is falsy, exit with the
last response's `stat`. -/
def idPhase (env : Request → Response) (apikey : String) (state : State)
    (mid : Option String) (tr : List Request) (changed : Bool)
    (res0 : Option Response) : RunResult :=
  if truthy mid then
    let req := Request.checkById apikey mid
    let r := env req
    if r.stat ≠ "ok" then
      ⟨tr ++ [req], Outcome.failed "failed" (some r.message), mid⟩
    else
      match r.monitors with
      | none => ⟨tr ++ [req], Outcome.crash, mid⟩
      | some [] => ⟨tr ++ [req], Outcome.crash, mid⟩
      | some (m :: _) =>
        let mreq : Option Request :=
          match state with
          | State.started => if m.status ≠ statusUp then some (Request.edit apikey mid 1) else none
          | State.paused => if m.status ≠ statusPaused then some (Request.edit apikey mid 0) else none
          | State.absent => some (Request.delete apikey mid)
          | State.present => none
        match mreq with
        | none => ⟨tr ++ [req], Outcome.ok changed r.stat, mid⟩
        | some q =>
          let r2 := env q
          if r2.stat ≠ "ok" then
            ⟨tr ++ [req, q], Outcome.failed "failed" (some r2.message), mid⟩
          else
            ⟨tr ++ [req, q], Outcome.ok true r2.stat, mid⟩
  else
    match res0 with
    | some r => ⟨tr, Outcome.ok changed r.stat, mid⟩
    | none => ⟨tr, Outcome.crash, mid⟩

/-- Lines 263-270: for `state=present`, `monitorname` and `monitorurl` are
demanded unconditionally; a creation request is issued only when
`monitor_id` is still falsy, its logical result is checked, and `changed`
becomes true; every path then continues with `idPhase`. -/
def presentPhase (env : Request → Response) (state : State) (apikey : String)
    (name url contacts : Option String) (mid : Option String)
    (tr : List Request) (res0 : Option Response) : RunResult :=
  if state = State.present then
    if !truthy name || !truthy url then
      ⟨tr, Outcome.failed "monitorname and monitorurl are required for state present" none, mid⟩
    else if !truthy mid then
      let creq := Request.create apikey name url (contactsParam contacts)
      let cres := env creq
      if cres.stat ≠ "ok" then
        ⟨tr ++ [creq], Outcome.failed "failed" (some cres.message), mid⟩
      else
        idPhase env apikey state mid (tr ++ [creq]) true (some cres)
    else
      idPhase env apikey state mid tr false res0
  else
    idPhase env apikey state mid tr false res0

/-- The whole `main` (lines 192-299): identity validation (line 216), the
search-resolution step, the `present` handling, and the id-confirmation /
mutation step. -/
def runMain (env : Request → Response) (state : State) (apikey : String)
    (monitorid monitorname monitorurl monitorcontactid : Option String) : RunResult :=
  if !truthy monitorid && !truthy monitorname && !truthy monitorurl then
    ⟨[], Outcome.failed "at least one of monitorid, monitorname or monitorurl are required" none, monitorid⟩
  else
    match resolvePhase env apikey monitorid monitorname monitorurl with
    | ResolveOut.ambiguous tr =>
      ⟨tr, Outcome.failed "unable to uniquely identify monitor" none, monitorid⟩
    | ResolveOut.resolved tr mid res0 =>
      presentPhase env state apikey monitorname monitorurl monitorcontactid mid tr res0

/-- A request that mutates remote state: creation, an edit, or a delete. -/
def Request.isMutating : Request → Bool
  | Request.create _ _ _ _ => true
  | Request.edit _ _ _ => true
  | Request.delete _ _ => true
  | _ => false

/-- Number of mutating requests in a trace. -/
def mutCount (l : List Request) : Nat :=
  (l.filter fun q => q.isMutating).length

/-- A creation request. -/
def Request.isCreate : Request → Bool
  | Request.create _ _ _ _ => true
  | _ => false

/-- Number of creation requests in a trace. -/
def createCount (l : List Request) : Nat :=
  (l.filter fun q => q.isCreate).length

/-! ### Concrete oracles used in the concrete-input theorems -/

/-- Oracle answering every request with a logically-ok payload carrying no
`monitors` entry. -/
def envOkNone : Request → Response := fun _ => ⟨"ok", "", none, none⟩

/-- Oracle answering every request with a logically-failed payload. -/
def envStatFail : Request → Response := fun _ =>
  ⟨"fail", "The monitor does not exist.", none, none⟩

/-- Oracle resolving every read to the single paused monitor 12345 and
acknowledging every mutation. -/
def envPausedMonitor : Request → Response := fun r =>
  match r with
  | Request.edit _ _ _ => ⟨"ok", "", none, none⟩
  | _ => ⟨"ok", "", some [⟨"12345", "0"⟩], none⟩

/-- Oracle for a creation run: the search payload carries no `monitors`
entry and the creation response carries the fresh id 777. -/
def envCreated : Request → Response := fun r =>
  match r with
  | Request.create _ _ _ _ => ⟨"ok", "", none, some "777"⟩
  | _ => ⟨"ok", "", none, none⟩

/-- Oracle whose search payload carries an empty monitor list. -/
def envEmptyList : Request → Response := fun r =>
  match r with
  | Request.search _ _ => ⟨"ok", "", some [], none⟩
  | _ => ⟨"ok", "", some [⟨"1", "2"⟩], none⟩

/-- Oracle whose confirm read-by-id reports a logical failure. -/
def envIdFail : Request → Response := fun r =>
  match r with
  | Request.checkById _ _ => ⟨"fail", "monitor not found", none, none⟩
  | _ => ⟨"ok", "", some [⟨"1", "2"⟩], none⟩

/-- Oracle whose confirm read-by-id is logically ok but carries an empty
monitor list. -/
def envIdEmpty : Request → Response := fun r =>
  match r with
  | Request.checkById _ _ => ⟨"ok", "", some [], none⟩
  | _ => ⟨"ok", "", some [⟨"1", "2"⟩], none⟩

/-- Oracle whose delete acknowledgment is a logical failure. -/
def envDeleteFails : Request → Response := fun r =>
  match r with
  | Request.delete _ _ => ⟨"fail", "subsequent failure", none, none⟩
  | _ => ⟨"ok", "", some [⟨"1", "2"⟩], none⟩

/-! ### Structural lemmas about the phases -/

theorem resolvePhase_cases (env : Request → Response) (k : String)
    (id name url : Option String) :
    (truthy id = true ∧ resolvePhase env k id name url = ResolveOut.resolved [] id none) ∨
    (∃ mid r, resolvePhase env k id name url
        = ResolveOut.resolved [Request.search k (searchTerm name url)] mid (some r)) ∨
    resolvePhase env k id name url
        = ResolveOut.ambiguous [Request.search k (searchTerm name url)] := by
  unfold resolvePhase
  by_cases h : truthy id = true
  · left; exact ⟨h, by simp [h]⟩
  · rw [Bool.not_eq_true] at h
    rcases hm : (env (Request.search k (searchTerm name url))).monitors with _ | (_ | ⟨m, rest⟩)
    · right; left
      exact ⟨id, env (Request.search k (searchTerm name url)), by simp [h, hm]⟩
    · right; right; simp [h, hm]
    · match rest with
      | [] =>
        right; left
        exact ⟨some m.id, env (Request.search k (searchTerm name url)), by simp [h, hm]⟩
      | m2 :: rest2 => right; right; simp [h, hm]

theorem idPhase_falsy (env : Request → Response) (k : String) (st : State)
    (mid : Option String) (tr : List Request) (ch : Bool) (r0 : Option Response)
    (h : truthy mid = false) :
    idPhase env k st mid tr ch r0
      = ⟨tr, match r0 with | some r => Outcome.ok ch r.stat | none => Outcome.crash, mid⟩ := by
  unfold idPhase
  rcases r0 with _ | r <;> simp [h]

theorem idPhase_trace (env : Request → Response) (k : String) (st : State)
    (mid : Option String) (tr : List Request) (ch : Bool) (r0 : Option Response) :
    (idPhase env k st mid tr ch r0).trace = tr ∨
    (idPhase env k st mid tr ch r0).trace = tr ++ [Request.checkById k mid] ∨
    ∃ q, Request.isMutating q = true ∧
      (idPhase env k st mid tr ch r0).trace = tr ++ [Request.checkById k mid, q] := by
  by_cases h : truthy mid = true
  · by_cases hs : (env (Request.checkById k mid)).stat = "ok"
    · rcases hm : (env (Request.checkById k mid)).monitors with _ | (_ | ⟨m, rest⟩)
      · right; left; unfold idPhase; simp [h, hs, hm]
      · right; left; unfold idPhase; simp [h, hs, hm]
      · rcases st with _ | _ | _ | _
        · by_cases hu : m.status = statusUp
          · right; left; unfold idPhase; simp [h, hs, hm, hu]
          · right; right
            refine ⟨Request.edit k mid 1, rfl, ?_⟩
            by_cases h2 : (env (Request.edit k mid 1)).stat = "ok" <;>
              · unfold idPhase; simp [h, hs, hm, hu, h2]
        · by_cases hu : m.status = statusPaused
          · right; left; unfold idPhase; simp [h, hs, hm, hu]
          · right; right
            refine ⟨Request.edit k mid 0, rfl, ?_⟩
            by_cases h2 : (env (Request.edit k mid 0)).stat = "ok" <;>
              · unfold idPhase; simp [h, hs, hm, hu, h2]
        · right; left; unfold idPhase; simp [h, hs, hm]
        · right; right
          refine ⟨Request.delete k mid, rfl, ?_⟩
          by_cases h2 : (env (Request.delete k mid)).stat = "ok" <;>
            · unfold idPhase; simp [h, hs, hm, h2]
    · right; left; unfold idPhase; simp [h, hs]
  · rw [Bool.not_eq_true] at h
    left
    rw [idPhase_falsy env k st mid tr ch r0 h]

theorem presentPhase_trace (env : Request → Response) (st : State) (k : String)
    (n u c mid : Option String) (tr : List Request) (r0 : Option Response) :
    (presentPhase env st k n u c mid tr r0).trace = tr ∨
    (presentPhase env st k n u c mid tr r0).trace = tr ++ [Request.checkById k mid] ∨
    (∃ q, Request.isMutating q = true ∧
      (presentPhase env st k n u c mid tr r0).trace = tr ++ [Request.checkById k mid, q]) ∨
    (presentPhase env st k n u c mid tr r0).trace
      = tr ++ [Request.create k n u (contactsParam c)] := by
  by_cases hp : st = State.present
  · subst hp
    by_cases hv : (!truthy n || !truthy u) = true
    · left; unfold presentPhase; simp [hv]
    · by_cases hm : truthy mid = true
      · rcases idPhase_trace env k State.present mid tr false r0 with h | h | ⟨q, hq, h⟩
        · left
          unfold presentPhase; simp only [hv, Bool.false_eq_true, if_false, if_true, hm,
            Bool.not_true, reduceIte]
          exact h
        · right; left
          unfold presentPhase; simp only [hv, Bool.false_eq_true, if_false, if_true, hm,
            Bool.not_true, reduceIte]
          exact h
        · right; right; left
          refine ⟨q, hq, ?_⟩
          unfold presentPhase; simp only [hv, Bool.false_eq_true, if_false, if_true, hm,
            Bool.not_true, reduceIte]
          exact h
      · rw [Bool.not_eq_true] at hm
        by_cases hc : (env (Request.create k n u (contactsParam c))).stat = "ok"
        · right; right; right
          unfold presentPhase
          simp only [hv, Bool.false_eq_true, if_false, hm, Bool.not_false, if_true, hc, ne_eq,
            not_true_eq_false, reduceIte]
          rw [idPhase_falsy env k State.present mid
            (tr ++ [Request.create k n u (contactsParam c)]) true
            (some (env (Request.create k n u (contactsParam c)))) hm]
        · right; right; right
          unfold presentPhase
          simp [hv, hm, hc]
  · rcases idPhase_trace env k st mid tr false r0 with h | h | ⟨q, hq, h⟩
    · left; unfold presentPhase; simp only [hp, if_false, reduceIte]; exact h
    · right; left; unfold presentPhase; simp only [hp, if_false, reduceIte]; exact h
    · right; right; left; refine ⟨q, hq, ?_⟩
      unfold presentPhase; simp only [hp, if_false, reduceIte]; exact h

theorem mutCount_append (l₁ l₂ : List Request) :
    mutCount (l₁ ++ l₂) = mutCount l₁ + mutCount l₂ := by
  simp [mutCount, List.filter_append]

theorem mutCount_dropLast_le (l : List Request) : mutCount l.dropLast ≤ mutCount l :=
  List.Sublist.length_le (List.Sublist.filter _ (List.dropLast_sublist l))

theorem presentPhase_bounds (env : Request → Response) (st : State) (k : String)
    (n u c mid : Option String) (tr : List Request) (r0 : Option Response)
    (hmut : mutCount tr = 0) (hlen : tr.length ≤ 1) :
    (presentPhase env st k n u c mid tr r0).trace.length ≤ 3 ∧
    mutCount (presentPhase env st k n u c mid tr r0).trace ≤ 1 ∧
    mutCount (presentPhase env st k n u c mid tr r0).trace.dropLast = 0 := by
  rcases presentPhase_trace env st k n u c mid tr r0 with h | h | ⟨q, hq, h⟩ | h <;> rw [h]
  · refine ⟨by omega, by omega, ?_⟩
    have := mutCount_dropLast_le tr
    omega
  · refine ⟨by simp; omega, ?_, ?_⟩
    · rw [mutCount_append, hmut]
      simp [mutCount, Request.isMutating]
    · rw [List.dropLast_concat, hmut]
  · refine ⟨by simp; omega, ?_, ?_⟩
    · rw [mutCount_append, hmut]
      have h1 : (Request.checkById k mid).isMutating = false := rfl
      simp [mutCount, List.filter_cons, h1, hq]
    · rw [show tr ++ [Request.checkById k mid, q] = (tr ++ [Request.checkById k mid]) ++ [q] by
        simp]
      rw [List.dropLast_concat, mutCount_append, hmut]
      simp [mutCount, Request.isMutating]
  · refine ⟨by simp; omega, ?_, ?_⟩
    · rw [mutCount_append, hmut]
      simp [mutCount, Request.isMutating]
    · rw [List.dropLast_concat, hmut]

theorem runMain_bounds (env : Request → Response) (st : State) (k : String)
    (id name url c : Option String) :
    (runMain env st k id name url c).trace.length ≤ 3 ∧
    mutCount (runMain env st k id name url c).trace ≤ 1 ∧
    mutCount (runMain env st k id name url c).trace.dropLast = 0 := by
  unfold runMain
  by_cases hval : (!truthy id && !truthy name && !truthy url) = true
  · simp [hval, mutCount]
  · simp only [hval, Bool.false_eq_true, if_false]
    rcases resolvePhase_cases env k id name url with ⟨_, hres⟩ | ⟨mid, r, hres⟩ | hres <;>
      rw [hres]
    · exact presentPhase_bounds env st k name url c id [] none rfl (by simp)
    · exact presentPhase_bounds env st k name url c mid
        [Request.search k (searchTerm name url)] (some r)
        (by simp [mutCount, Request.isMutating]) (by simp)
    · simp [mutCount, Request.isMutating]

theorem resolvePhase_resolved_mut (env : Request → Response) (k : String)
    (id name url : Option String) (tr : List Request) (mid : Option String)
    (r0 : Option Response)
    (hres : resolvePhase env k id name url = ResolveOut.resolved tr mid r0) :
    mutCount tr = 0 := by
  rcases resolvePhase_cases env k id name url with ⟨_, h⟩ | ⟨mid2, r2, h⟩ | h <;>
    rw [h] at hres
  · obtain ⟨h1, -, -⟩ := ResolveOut.resolved.inj hres.symm
    rw [h1]; rfl
  · obtain ⟨h1, -, -⟩ := ResolveOut.resolved.inj hres.symm
    rw [h1]; simp [mutCount, Request.isMutating]
  · cases hres

theorem idPhase_no_crash (env : Request → Response) (k : String) (st : State)
    (mid : Option String) (tr : List Request) (ch : Bool) (r0 : Option Response)
    (hp : ∀ q : Request, (env q).stat = "ok" → ∃ m mtl, (env q).monitors = some (m :: mtl))
    (h0 : truthy mid = false → r0.isSome = true) :
    (idPhase env k st mid tr ch r0).outcome ≠ Outcome.crash := by
  by_cases h : truthy mid = true
  · by_cases hs : (env (Request.checkById k mid)).stat = "ok"
    · obtain ⟨m, mtl, hm⟩ := hp (Request.checkById k mid) hs
      rcases st with _ | _ | _ | _
      · by_cases hu : m.status = statusUp
        · unfold idPhase; simp [h, hs, hm, hu]
        · by_cases h2 : (env (Request.edit k mid 1)).stat = "ok" <;>
            · unfold idPhase; simp [h, hs, hm, hu, h2]
      · by_cases hu : m.status = statusPaused
        · unfold idPhase; simp [h, hs, hm, hu]
        · by_cases h2 : (env (Request.edit k mid 0)).stat = "ok" <;>
            · unfold idPhase; simp [h, hs, hm, hu, h2]
      · unfold idPhase; simp [h, hs, hm]
      · by_cases h2 : (env (Request.delete k mid)).stat = "ok" <;>
          · unfold idPhase; simp [h, hs, hm, h2]
    · unfold idPhase; simp [h, hs]
  · rw [Bool.not_eq_true] at h
    have hr0 := h0 h
    rcases r0 with _ | r
    · simp at hr0
    · rw [idPhase_falsy env k st mid tr ch (some r) h]
      simp

theorem presentPhase_no_crash (env : Request → Response) (st : State) (k : String)
    (n u c mid : Option String) (tr : List Request) (r0 : Option Response)
    (hp : ∀ q : Request, (env q).stat = "ok" → ∃ m mtl, (env q).monitors = some (m :: mtl))
    (h0 : truthy mid = false → r0.isSome = true) :
    (presentPhase env st k n u c mid tr r0).outcome ≠ Outcome.crash := by
  by_cases hpr : st = State.present
  · subst hpr
    by_cases hv : (!truthy n || !truthy u) = true
    · unfold presentPhase; simp [hv]
    · by_cases hm : truthy mid = true
      · have hh := idPhase_no_crash env k State.present mid tr false r0 hp (by simp [hm])
        unfold presentPhase
        simp only [reduceIte, hv, Bool.false_eq_true, if_false, hm, Bool.not_true]
        exact hh
      · rw [Bool.not_eq_true] at hm
        by_cases hc : (env (Request.create k n u (contactsParam c))).stat = "ok"
        · unfold presentPhase
          simp only [hv, Bool.false_eq_true, if_false, hm, Bool.not_false, if_true, hc, ne_eq,
            not_true_eq_false, reduceIte]
          rw [idPhase_falsy env k State.present mid
            (tr ++ [Request.create k n u (contactsParam c)]) true
            (some (env (Request.create k n u (contactsParam c)))) hm]
          simp
        · unfold presentPhase; simp [hv, hm, hc]
  · have hh := idPhase_no_crash env k st mid tr false r0 hp h0
    unfold presentPhase
    simp only [hpr, if_false, reduceIte]
    exact hh

theorem runMain_no_crash (env : Request → Response) (st : State) (k : String)
    (id name url c : Option String)
    (hp : ∀ q : Request, (env q).stat = "ok" → ∃ m mtl, (env q).monitors = some (m :: mtl)) :
    (runMain env st k id name url c).outcome ≠ Outcome.crash := by
  unfold runMain
  by_cases hval : (!truthy id && !truthy name && !truthy url) = true
  · simp [hval]
  · simp only [hval, Bool.false_eq_true, if_false]
    rcases resolvePhase_cases env k id name url with ⟨hid, hres⟩ | ⟨mid, r, hres⟩ | hres <;>
      rw [hres]
    · exact presentPhase_no_crash env st k name url c id [] none hp (by simp [hid])
    · exact presentPhase_no_crash env st k name url c mid
        [Request.search k (searchTerm name url)] (some r) hp (by simp)
    · simp

theorem runMain_search_no_monitors (env : Request → Response) (st : State) (k : String)
    (name url c : Option String)
    (hst : st ≠ State.present)
    (hval : (truthy name || truthy url) = true)
    (hm : (env (Request.search k (searchTerm name url))).monitors = none) :
    runMain env st k none name url c
      = ⟨[Request.search k (searchTerm name url)],
         Outcome.ok false (env (Request.search k (searchTerm name url))).stat, none⟩ := by
  have hval2 : truthy name = true ∨ truthy url = true := by simpa using hval
  have hv : (!truthy (none : Option String) && !truthy name && !truthy url) = false := by
    rcases hval2 with h | h <;> simp [h]
  have hres : resolvePhase env k none name url
      = ResolveOut.resolved [Request.search k (searchTerm name url)] none
          (some (env (Request.search k (searchTerm name url)))) := by
    unfold resolvePhase
    simp [truthy, hm]
  unfold runMain
  simp only [hv, Bool.false_eq_true, if_false]
  rw [hres]
  unfold presentPhase
  simp only [hst, if_false, reduceIte]
  rw [idPhase_falsy env k st none [Request.search k (searchTerm name url)] false
    (some (env (Request.search k (searchTerm name url)))) rfl]

theorem runMain_search_not_single (env : Request → Response) (st : State) (k : String)
    (name url c : Option String) (ms : List Monitor)
    (hval : (truthy name || truthy url) = true)
    (hm : (env (Request.search k (searchTerm name url))).monitors = some ms)
    (hlen : ms.length ≠ 1) :
    runMain env st k none name url c
      = ⟨[Request.search k (searchTerm name url)],
         Outcome.failed "unable to uniquely identify monitor" none, none⟩ := by
  have hval2 : truthy name = true ∨ truthy url = true := by simpa using hval
  have hv : (!truthy (none : Option String) && !truthy name && !truthy url) = false := by
    rcases hval2 with h | h <;> simp [h]
  have hres : resolvePhase env k none name url
      = ResolveOut.ambiguous [Request.search k (searchTerm name url)] := by
    unfold resolvePhase
    rcases ms with _ | ⟨m, rest⟩
    · simp [truthy, hm]
    · rcases rest with _ | ⟨m2, rest2⟩
      · exact absurd rfl hlen
      · simp [truthy, hm]
  unfold runMain
  simp only [hv, Bool.false_eq_true, if_false]
  rw [hres]

theorem runMain_create_ok (env : Request → Response) (k : String)
    (name url c : Option String)
    (hn : truthy name = true) (hu : truthy url = true)
    (hm : (env (Request.search k (searchTerm name url))).monitors = none)
    (hc : (env (Request.create k name url (contactsParam c))).stat = "ok") :
    runMain env State.present k none name url c
      = ⟨[Request.search k (searchTerm name url),
          Request.create k name url (contactsParam c)],
         Outcome.ok true (env (Request.create k name url (contactsParam c))).stat, none⟩ := by
  have hv : (!truthy (none : Option String) && !truthy name && !truthy url) = false := by
    simp [hn]
  have hres : resolvePhase env k none name url
      = ResolveOut.resolved [Request.search k (searchTerm name url)] none
          (some (env (Request.search k (searchTerm name url)))) := by
    unfold resolvePhase
    simp [truthy, hm]
  unfold runMain
  simp only [hv, Bool.false_eq_true, if_false]
  rw [hres]
  unfold presentPhase
  have hv2 : (!truthy name || !truthy url) = false := by simp [hn, hu]
  have ht : truthy (none : Option String) = false := rfl
  simp only [reduceIte, hv2, Bool.false_eq_true, if_false, ht, Bool.not_false, if_true, hc,
    ne_eq, not_true_eq_false]
  rw [idPhase_falsy env k State.present none
    ([Request.search k (searchTerm name url)] ++ [Request.create k name url (contactsParam c)])
    true (some (env (Request.create k name url (contactsParam c)))) rfl]
  simp [hc]

/-! ### Claim theorems -/

/-- C1, counterexample: with no explicit id, name `a` and url `b` both
supplied, the identity search is issued with the url `b` — not the name
`a` — as its search term, refuting the claim that the name is used when
both are present. -/
theorem C1_cex :
    (runMain envOkNone State.started "k" none (some "a") (some "b") none).trace
      = [Request.search "k" (some "b")]
    ∧ (some "b" : Option String) ≠ some "a" := by
  refine ⟨rfl, by simp⟩

/-- C1, amended: for every invocation with no explicit monitor id whose
name and url are both truthy, the first remote request is an identity
search whose search term is the url; the name is used only when no url is
present. -/
theorem C1_url_overrides_name (env : Request → Response) (state : State) (k : String)
    (name url c : Option String)
    (hn : truthy name = true) (hu : truthy url = true) :
    (runMain env state k none name url c).trace.head? = some (Request.search k url) := by
  have hterm : searchTerm name url = url := by simp [searchTerm, hu]
  have hval : (!truthy (none : Option String) && !truthy name && !truthy url) = false := by
    simp [hn]
  unfold runMain
  simp only [hval, Bool.false_eq_true, if_false]
  rcases resolvePhase_cases env k none name url with ⟨hid, _⟩ | ⟨mid, r, hres⟩ | hres
  · simp [truthy] at hid
  · rw [hres, hterm]
    rcases presentPhase_trace env state k name url c mid [Request.search k url] (some r) with
      h | h | ⟨q, hq, h⟩ | h <;> rw [h] <;> rfl
  · rw [hres, hterm]
    rfl

/-- C1, witness for the amended theorem at a concrete input. -/
theorem C1_wit :
    (runMain envOkNone State.started "k" none (some "a") (some "b") none).trace.head?
      = some (Request.search "k" (some "b")) :=
  C1_url_overrides_name envOkNone State.started "k" (some "a") (some "b") none rfl rfl

/-- C2, counterexample: state `started`, no explicit id, name `a`, and a
search payload with no `monitors` entry: the module issues no edit but
exits successfully (`exit_json` with `changed = false`) instead of
failing, refuting the claim that such an invocation fails. -/
theorem C2_cex :
    runMain envOkNone State.started "k" none (some "a") none none
      = ⟨[Request.search "k" (some "a")], Outcome.ok false "ok", none⟩ := rfl

/-- C2, amended: for state `started` or `paused` with no explicit id, when
the search payload carries a monitor list whose length is not one the
invocation fails with the unique-identification error and issues no
mutating call; but when the payload carries no monitor list at all the
invocation exits successfully with `changed = false`, again issuing no
mutating call. -/
theorem C2_unresolved_search (env : Request → Response) (state : State) (k : String)
    (name url c : Option String)
    (hstate : state = State.started ∨ state = State.paused)
    (hval : (truthy name || truthy url) = true) :
    ((env (Request.search k (searchTerm name url))).monitors = none →
      runMain env state k none name url c
        = ⟨[Request.search k (searchTerm name url)],
           Outcome.ok false (env (Request.search k (searchTerm name url))).stat, none⟩) ∧
    (∀ ms : List Monitor,
      (env (Request.search k (searchTerm name url))).monitors = some ms → ms.length ≠ 1 →
      runMain env state k none name url c
        = ⟨[Request.search k (searchTerm name url)],
           Outcome.failed "unable to uniquely identify monitor" none, none⟩) := by
  constructor
  · intro hm
    refine runMain_search_no_monitors env state k name url c ?_ hval hm
    rcases hstate with h | h <;> subst h <;> simp
  · intro ms hm hlen
    exact runMain_search_not_single env state k name url c ms hval hm hlen

/-- C2, witness for the amended theorem at a concrete input. -/
theorem C2_wit :
    runMain envOkNone State.paused "k" none (some "a") none none
      = ⟨[Request.search "k" (some "a")], Outcome.ok false "ok", none⟩ :=
  (C2_unresolved_search envOkNone State.paused "k" (some "a") none none
    (Or.inr rfl) rfl).1 rfl

/-- C3, counterexample: state `started` resolved via a name search against
a paused monitor issues three remote calls (search, confirm read, edit),
refuting the claim that no invocation issues three or more remote
calls. -/
theorem C3_cex :
    (runMain envPausedMonitor State.started "k" none (some "a") none none).trace.length
      = 3 := rfl

/-- C3, amended: every invocation issues at most 3 remote calls — one
identity-search read, one confirm read, and one mutating write — and an
invocation with an explicit (truthy) monitor id, which skips the identity
search, issues at most 2. -/
theorem C3_at_most_three_calls (env : Request → Response) (state : State) (k : String)
    (id name url c : Option String) :
    (runMain env state k id name url c).trace.length ≤ 3
    ∧ (truthy id = true → (runMain env state k id name url c).trace.length ≤ 2) := by
  refine ⟨(runMain_bounds env state k id name url c).1, ?_⟩
  intro hid
  have hv : (!truthy id && !truthy name && !truthy url) = false := by simp [hid]
  have hres : resolvePhase env k id name url = ResolveOut.resolved [] id none := by
    unfold resolvePhase
    simp [hid]
  unfold runMain
  simp only [hv, Bool.false_eq_true, if_false]
  rw [hres]
  rcases presentPhase_trace env state k name url c id [] none with h | h | ⟨q, hq, h⟩ | h <;>
    rw [h] <;> simp

/-- C3, witness for the explicit-id clause of the amended theorem at a
concrete input. -/
theorem C3_wit :
    (runMain envIdFail State.started "k" (some "99999") none none none).trace.length ≤ 2 :=
  (C3_at_most_three_calls envIdFail State.started "k" (some "99999") none none none).2 rfl

/-- C4, counterexample: a search payload whose logical status indicator is
`"fail"` is not surfaced: the invocation exits successfully, reporting the
failing stat as its result, refuting the claim that the logical status is
checked after every remote call. -/
theorem C4_cex :
    runMain envStatFail State.started "k" none (some "a") none none
      = ⟨[Request.search "k" (some "a")], Outcome.ok false "fail", none⟩ := rfl

/-- C4, amended: the logical status indicator is checked after the confirm
read-by-id and again after a mutating call — here, a logically-failed
delete response aborts the invocation with the remote-provided message —
but it is never checked after the initial identity-search call. -/
theorem C4_mutation_rechecked (env : Request → Response) (k : String)
    (id name url c : Option String) (m : Monitor) (mtl : List Monitor)
    (hid : truthy id = true)
    (hconf : (env (Request.checkById k id)).stat = "ok")
    (hmon : (env (Request.checkById k id)).monitors = some (m :: mtl))
    (hdel : (env (Request.delete k id)).stat ≠ "ok") :
    (runMain env State.absent k id name url c).outcome
      = Outcome.failed "failed" (some (env (Request.delete k id)).message) := by
  unfold runMain
  simp only [hid, Bool.not_true, Bool.false_and, Bool.false_eq_true, if_false]
  have hres : resolvePhase env k id name url = ResolveOut.resolved [] id none := by
    unfold resolvePhase
    simp [hid]
  rw [hres]
  unfold presentPhase
  simp only [reduceIte]
  unfold idPhase
  simp [hid, hconf, hmon, hdel]

/-- C4, witness for the amended theorem at a concrete input. -/
theorem C4_wit :
    (runMain envDeleteFails State.absent "k" (some "1") none none none).outcome
      = Outcome.failed "failed" (some "subsequent failure") :=
  C4_mutation_rechecked envDeleteFails "k" (some "1") none none none ⟨"1", "2"⟩ []
    rfl rfl rfl (by decide)

/-- C5, counterexample: a successful create whose payload carries the new
id 777 still leaves the run's resolved `monitor_id` unset, refuting the
claim that the id returned by the create operation becomes the resolved
id; only `changed = true` holds. -/
theorem C5_cex :
    (envCreated (Request.create "k" (some "google") (some "https://www.google.com")
        (some "98765"))).createdId = some "777"
    ∧ (runMain envCreated State.present "k" none (some "google")
        (some "https://www.google.com") (some "98765")).outcome = Outcome.ok true "ok"
    ∧ (runMain envCreated State.present "k" none (some "google")
        (some "https://www.google.com") (some "98765")).finalId = none :=
  ⟨rfl, rfl, rfl⟩

/-- C5, amended: when a Present invocation issues a create operation and it
succeeds, `changed = true` is reported, but the id returned by the create
operation is ignored: the resolved id stays unset and no further remote
call is issued after the create. -/
theorem C5_created_id_ignored (env : Request → Response) (k : String)
    (name url c : Option String)
    (hn : truthy name = true) (hu : truthy url = true)
    (hm : (env (Request.search k (searchTerm name url))).monitors = none)
    (hc : (env (Request.create k name url (contactsParam c))).stat = "ok") :
    (runMain env State.present k none name url c).outcome
      = Outcome.ok true (env (Request.create k name url (contactsParam c))).stat
    ∧ (runMain env State.present k none name url c).finalId = none
    ∧ (runMain env State.present k none name url c).trace
      = [Request.search k (searchTerm name url),
         Request.create k name url (contactsParam c)] := by
  rw [runMain_create_ok env k name url c hn hu hm hc]
  exact ⟨rfl, rfl, rfl⟩

/-- C5, witness for the amended theorem at a concrete input. -/
theorem C5_wit :
    (runMain envCreated State.present "k" none (some "google")
        (some "https://www.google.com") (some "98765")).outcome = Outcome.ok true "ok"
    ∧ (runMain envCreated State.present "k" none (some "google")
        (some "https://www.google.com") (some "98765")).finalId = none
    ∧ (runMain envCreated State.present "k" none (some "google")
        (some "https://www.google.com") (some "98765")).trace
      = [Request.search "k" (some "https://www.google.com"),
         Request.create "k" (some "google") (some "https://www.google.com") (some "98765")] :=
  C5_created_id_ignored envCreated "k" (some "google") (some "https://www.google.com")
    (some "98765") rfl rfl rfl rfl

/-- C6, counterexample: state `present` with an explicit monitor id but no
name and no url fails with the missing-parameter message before any remote
call, refuting the claim that such an invocation does not fail. -/
theorem C6_cex :
    runMain envOkNone State.present "k" (some "12345") none none none
      = ⟨[], Outcome.failed "monitorname and monitorurl are required for state present" none,
         some "12345"⟩ := rfl

/-- C6, amended: for state `present`, `monitorname` and `monitorurl` are
required unconditionally: whether the record is resolvable through an
explicit (truthy) monitor id or through a unique search match, a missing
name or url fails the invocation with the missing-parameter message —
before any remote call in the explicit-id case, and right after the
identity search in the unique-match case — so no mutating call is ever
issued. -/
theorem C6_name_url_always_required (env : Request → Response) (k : String)
    (id name url c : Option String)
    (hmiss : (truthy name && truthy url) = false) :
    (truthy id = true →
      runMain env State.present k id name url c
        = ⟨[], Outcome.failed "monitorname and monitorurl are required for state present" none,
           id⟩)
    ∧ (∀ m : Monitor, truthy id = false → (truthy name || truthy url) = true →
        (env (Request.search k (searchTerm name url))).monitors = some [m] →
        runMain env State.present k id name url c
          = ⟨[Request.search k (searchTerm name url)],
             Outcome.failed "monitorname and monitorurl are required for state present" none,
             some m.id⟩) := by
  have hv2 : (!truthy name || !truthy url) = true := by
    rw [← Bool.not_and, hmiss]
    rfl
  constructor
  · intro hid
    unfold runMain
    simp only [hid, Bool.not_true, Bool.false_and, Bool.false_eq_true, if_false]
    have hres : resolvePhase env k id name url = ResolveOut.resolved [] id none := by
      unfold resolvePhase
      simp [hid]
    rw [hres]
    unfold presentPhase
    simp only [reduceIte, hv2, if_true]
  · intro m hidf hval hm
    have hv : (!truthy id && !truthy name && !truthy url) = false := by
      have h2 : truthy name = true ∨ truthy url = true := by simpa using hval
      rcases h2 with h | h <;> simp [h]
    have hres : resolvePhase env k id name url
        = ResolveOut.resolved [Request.search k (searchTerm name url)] (some m.id)
            (some (env (Request.search k (searchTerm name url)))) := by
      unfold resolvePhase
      simp [hidf, hm]
    unfold runMain
    simp only [hv, Bool.false_eq_true, if_false]
    rw [hres]
    unfold presentPhase
    simp only [reduceIte, hv2, if_true]

/-- C6, witness for the amended theorem at a concrete input exercising the
unique-search-match case: the search resolves monitor 12345, and the
invocation still fails for the missing url. -/
theorem C6_wit :
    runMain envPausedMonitor State.present "k" none (some "google") none none
      = ⟨[Request.search "k" (some "google")],
         Outcome.failed "monitorname and monitorurl are required for state present" none,
         some "12345"⟩ :=
  (C6_name_url_always_required envPausedMonitor "k" none (some "google") none none rfl).2
    ⟨"12345", "0"⟩ rfl rfl rfl

/-- C7, counterexample: a Present invocation with no explicit id whose
search payload carries an empty monitor list (zero matching records)
issues no create call and fails with the unique-identification error,
refuting the claim that zero matching records always lead to exactly one
create call with `changed = true`. -/
theorem C7_cex :
    createCount (runMain envEmptyList State.present "k" none (some "google")
      (some "https://www.google.com") (some "98765")).trace = 0
    ∧ (runMain envEmptyList State.present "k" none (some "google")
      (some "https://www.google.com") (some "98765")).outcome
      = Outcome.failed "unable to uniquely identify monitor" none :=
  ⟨rfl, rfl⟩

/-- C7, amended: for state `present` with no explicit id, when the
zero-match search payload carries no monitor list at all, exactly one
create call is issued, carrying the friendly name, the url and the
alert-contact value (`contactsParam` omits the parameter when it is
falsy), and the invocation reports `changed = true`; when the zero-match
payload instead carries an empty monitor list, the invocation fails with
the unique-identification error and no create is issued. -/
theorem C7_create_exactly_once (env : Request → Response) (k : String)
    (name url c : Option String)
    (hn : truthy name = true) (hu : truthy url = true) :
    ((env (Request.search k (searchTerm name url))).monitors = none →
      (env (Request.create k name url (contactsParam c))).stat = "ok" →
      createCount (runMain env State.present k none name url c).trace = 1
      ∧ Request.create k name url (contactsParam c)
          ∈ (runMain env State.present k none name url c).trace
      ∧ (runMain env State.present k none name url c).outcome
          = Outcome.ok true (env (Request.create k name url (contactsParam c))).stat
      ∧ (truthy c = false → contactsParam c = none))
    ∧ ((env (Request.search k (searchTerm name url))).monitors = some [] →
      createCount (runMain env State.present k none name url c).trace = 0
      ∧ (runMain env State.present k none name url c).outcome
          = Outcome.failed "unable to uniquely identify monitor" none) := by
  constructor
  · intro hm hc
    rw [runMain_create_ok env k name url c hn hu hm hc]
    refine ⟨?_, by simp, rfl, ?_⟩
    · simp [createCount, Request.isCreate]
    · intro h
      simp [contactsParam, h]
  · intro hm
    rw [runMain_search_not_single env State.present k name url c [] (by simp [hn]) hm
      (by simp)]
    exact ⟨rfl, rfl⟩

/-- C7, witness for the amended theorem at a concrete input. -/
theorem C7_wit :
    createCount (runMain envCreated State.present "k" none (some "google")
        (some "https://www.google.com") (some "98765")).trace = 1
    ∧ Request.create "k" (some "google") (some "https://www.google.com") (some "98765")
        ∈ (runMain envCreated State.present "k" none (some "google")
            (some "https://www.google.com") (some "98765")).trace
    ∧ (runMain envCreated State.present "k" none (some "google")
        (some "https://www.google.com") (some "98765")).outcome = Outcome.ok true "ok"
    ∧ (truthy (some "98765") = false → contactsParam (some "98765") = none) :=
  (C7_create_exactly_once envCreated "k" (some "google") (some "https://www.google.com")
    (some "98765") rfl rfl).1 rfl rfl

/-- C8: for every invocation with state `started`, `paused` or `absent`
whose resolution yields a truthy monitor id (explicit or via a unique
search match), if the confirm read-by-id answers with a failing logical
status — the remote service's no-record signal for a stale or invalid
id — then the invocation fails with the remote-provided message and
issues no mutating (edit or delete) call. -/
theorem C8_confirm_notfound (env : Request → Response) (st : State) (k : String)
    (id name url c mid : Option String) (tr : List Request) (r0 : Option Response)
    (hstate : st = State.started ∨ st = State.paused ∨ st = State.absent)
    (hval : (truthy id || truthy name || truthy url) = true)
    (hres : resolvePhase env k id name url = ResolveOut.resolved tr mid r0)
    (hmid : truthy mid = true)
    (hconf : (env (Request.checkById k mid)).stat ≠ "ok") :
    (runMain env st k id name url c).outcome
      = Outcome.failed "failed" (some (env (Request.checkById k mid)).message)
    ∧ mutCount (runMain env st k id name url c).trace = 0 := by
  have hv : (!truthy id && !truthy name && !truthy url) = false := by
    have h2 : (truthy id = true ∨ truthy name = true) ∨ truthy url = true := by
      simpa using hval
    rcases h2 with (h | h) | h <;> simp [h]
  have hmut0 : mutCount tr = 0 := resolvePhase_resolved_mut env k id name url tr mid r0 hres
  have hnp : st ≠ State.present := by
    rcases hstate with h | h | h <;> subst h <;> simp
  have hrun : runMain env st k id name url c
      = ⟨tr ++ [Request.checkById k mid],
         Outcome.failed "failed" (some (env (Request.checkById k mid)).message), mid⟩ := by
    unfold runMain
    simp only [hv, Bool.false_eq_true, if_false]
    rw [hres]
    unfold presentPhase
    simp only [hnp, if_false, reduceIte]
    unfold idPhase
    simp [hmid, hconf]
  rw [hrun]
  refine ⟨rfl, ?_⟩
  rw [mutCount_append, hmut0]
  rfl

/-- C8, witness at the concrete scenario of the spec: explicit id 99999,
state `started`, confirm read answering a logical failure. -/
theorem C8_wit :
    (runMain envIdFail State.started "k" (some "99999") none none none).outcome
      = Outcome.failed "failed" (some "monitor not found")
    ∧ mutCount (runMain envIdFail State.started "k" (some "99999") none none none).trace
      = 0 :=
  C8_confirm_notfound envIdFail State.started "k" (some "99999") none none none
    (some "99999") [] none (Or.inl rfl) rfl rfl rfl (by decide)

/-- C9: every invocation issues at most one mutating remote call, and any
mutating call is the last remote call of the trace: nothing further is
attempted after it. -/
theorem C9_at_most_one_mutation (env : Request → Response) (state : State) (k : String)
    (id name url c : Option String) :
    mutCount (runMain env state k id name url c).trace ≤ 1
    ∧ mutCount (runMain env state k id name url c).trace.dropLast = 0 :=
  ⟨(runMain_bounds env state k id name url c).2.1,
   (runMain_bounds env state k id name url c).2.2⟩

/-- C10: the monitor-list reads are unguarded: a confirm payload that
passes the logical-status check but carries no non-empty monitor list
crashes the invocation (uncaught KeyError/IndexError); and under the
precondition that every logically-ok payload carries at least one monitor
record, no invocation can crash. -/
theorem C10_unguarded_monitor_list (env : Request → Response) (st : State) (k : String)
    (id name url c : Option String)
    (hid : truthy id = true)
    (hpres : st = State.present → (truthy name && truthy url) = true)
    (hok : (env (Request.checkById k id)).stat = "ok")
    (hempty : (env (Request.checkById k id)).monitors = none ∨
      (env (Request.checkById k id)).monitors = some []) :
    (runMain env st k id name url c).outcome = Outcome.crash ∧
    ∀ env2 : Request → Response,
      (∀ q : Request, (env2 q).stat = "ok" → ∃ m mtl, (env2 q).monitors = some (m :: mtl)) →
      ∀ st2 k2 id2 n2 u2 c2, (runMain env2 st2 k2 id2 n2 u2 c2).outcome ≠ Outcome.crash := by
  constructor
  · have key : ∀ st2 : State, (idPhase env k st2 id [] false none).outcome = Outcome.crash := by
      intro st2
      unfold idPhase
      rcases hempty with he | he <;> simp [hid, hok, he]
    unfold runMain
    simp only [hid, Bool.not_true, Bool.false_and, Bool.false_eq_true, if_false]
    have hres : resolvePhase env k id name url = ResolveOut.resolved [] id none := by
      unfold resolvePhase
      simp [hid]
    rw [hres]
    by_cases hpr : st = State.present
    · subst hpr
      obtain ⟨hn, hu⟩ : truthy name = true ∧ truthy url = true := by simpa using hpres rfl
      have hv : (!truthy name || !truthy url) = false := by simp [hn, hu]
      unfold presentPhase
      simp only [reduceIte, hv, Bool.false_eq_true, if_false, hid, Bool.not_true]
      exact key State.present
    · unfold presentPhase
      simp only [hpr, if_false, reduceIte]
      exact key st
  · intro env2 hp st2 k2 id2 n2 u2 c2
    exact runMain_no_crash env2 st2 k2 id2 n2 u2 c2 hp

/-- C10, witness: a confirm payload with `stat = ok` and an empty monitor
list crashes the invocation. -/
theorem C10_wit :
    (runMain envIdEmpty State.absent "k" (some "1") none none none).outcome
      = Outcome.crash :=
  (C10_unguarded_monitor_list envIdEmpty State.absent "k" (some "1") none none none
    rfl (by decide) rfl (Or.inr rfl)).1

end UptimeRobot
